import Mathlib

/-!
Shallow embedding of the rooster_fleet_manager Job/Task lifecycle engine and
the Job-to-Executor allocation scheduler, together with theorems checking the
natural-language specification against the embedded code.

Sources embedded:
  src/src/JobManager/Job.py            (Job state machine)
  src/src/JobManager/JobActivation.py  (job_allocator, job_refiner)
  src/src/task_class.py                (RobotMoveBase, AwaitingLoadCompletion)

Side effects of the Python code (calling a task object's start method,
invoking the job completion callback, notifying the MEx Sentinel registry)
are modelled as events emitted by otherwise pure state transformers.
Python exceptions (IndexError on out-of-range list access, AttributeError on
a never-assigned attribute, TypeError on None arithmetic) are modelled by an
error field carrying the exception name; the mutations performed before the
raising statement persist in the returned state, exactly as they do on the
mutable Python objects.
-/

namespace Rooster

/-- Embeds JobStatus of src/src/JobManager/Job.py. -/
inductive JobStatus where
  | PENDING
  | ASSIGNED
  | ACTIVE
  | SUCCEEDED
  | ABORTED
deriving DecidableEq, Repr

/-- Embeds JobPriority of src/src/JobManager/Job.py (data only, no behaviour). -/
inductive JobPriority where
  | LOW
  | MEDIUM
  | HIGH
  | CRITICAL
deriving DecidableEq, Repr

/-- Embeds OrderKeyword of src/src/JobManager/Order.py (data only). -/
inductive OrderKeyword where
  | TRANSPORT
  | MOVE
  | FOLLOW
deriving DecidableEq, Repr

/-- Embeds TaskStatus of src/src/task_class.py (also imported by Job.py as
the Tasks module): PENDING=0, ACTIVE=1, CANCELLED=2, SUCCEEDED=3, ABORTED=4. -/
inductive TaskStatus where
  | PENDING
  | ACTIVE
  | CANCELLED
  | SUCCEEDED
  | ABORTED
deriving DecidableEq, Repr

/-- Observable side effects of a Job method call: a call to
task_list[i].start(mex_id, i, task_cb), or a call to
completion_callback(job_id, mex_id). -/
inductive JobEvent where
  | taskStart (mex_id : Option String) (task_index : Nat)
  | completion (job_id : String) (mex_id : Option String)
deriving DecidableEq, Repr

/-- True exactly on completion-callback events. -/
def JobEvent.isCompletion : JobEvent → Bool
  | .completion _ _ => true
  | _ => false

/-- True exactly on task-start events. -/
def JobEvent.isTaskStart : JobEvent → Bool
  | .taskStart _ _ => true
  | _ => false

/-- Embeds the Job class of src/src/JobManager/Job.py.  The task list holds
opaque task objects of type tau: the Job code only ever calls their start
method, which is recorded as a JobEvent.  The completion_callback attribute
is likewise modelled by emitted JobEvent.completion events.  mex_id is None
or a MEx identifier string; task_current is None until start_job runs. -/
structure Job (tau : Type) where
  id : String
  mex_id : Option String
  status : JobStatus
  task_count : Nat
  task_current : Option Nat
  task_list : List tau
  priority : JobPriority
  keyword : OrderKeyword
deriving DecidableEq, Repr

/-- Result of one Job method call: the post state, the emitted events in
order, and the Python exception raised, if any (mutations made before the
raising statement are kept in the post state). -/
structure JobStep (tau : Type) where
  job : Job tau
  events : List JobEvent
  err : Option String
deriving DecidableEq, Repr

/-- Embeds Job.__init__: a fresh job is PENDING with an empty task list,
task_count 0 and no current task. -/
def Job.new (tau : Type) (job_id : String) (keyword : OrderKeyword)
    (mex_id : Option String) (priority : JobPriority) : Job tau :=
  { id := job_id
    mex_id := mex_id
    status := JobStatus.PENDING
    task_count := 0
    task_current := none
    task_list := []
    priority := priority
    keyword := keyword }

/-- Embeds Job.add_task: append one task and refresh task_count. -/
def Job.add_task {tau : Type} (j : Job tau) (task : tau) : Job tau :=
  let l := j.task_list ++ [task]
  { j with task_list := l, task_count := l.length }

/-- Embeds Job.add_tasks: append a list of tasks and refresh task_count. -/
def Job.add_tasks {tau : Type} (j : Job tau) (list_of_tasks : List tau) : Job tau :=
  let l := j.task_list ++ list_of_tasks
  { j with task_list := l, task_count := l.length }

/-- Embeds Job.assign_mex: set mex_id and move to ASSIGNED, but only from
PENDING or ASSIGNED; silently no effect from any other status. -/
def Job.assign_mex {tau : Type} (j : Job tau) (mex_id : String) : Job tau :=
  if j.status = JobStatus.PENDING ∨ j.status = JobStatus.ASSIGNED then
    { j with mex_id := some mex_id, status := JobStatus.ASSIGNED }
  else
    j

/-- Embeds Job.start_job: if status is ASSIGNED, set status ACTIVE, set
task_current to 0, then evaluate task_list[0].start(mex_id, 0, task_cb);
on an empty task list that subscript raises IndexError after the status and
index assignments already happened.  Any other starting status only logs. -/
def Job.start_job {tau : Type} (j : Job tau) : JobStep tau :=
  if j.status = JobStatus.ASSIGNED then
    let j1 := { j with status := JobStatus.ACTIVE, task_current := some 0 }
    if 0 < j1.task_list.length then
      { job := j1, events := [JobEvent.taskStart j1.mex_id 0], err := none }
    else
      { job := j1, events := [], err := some "IndexError" }
  else
    { job := j, events := [], err := none }

/-- Embeds Job.next_task: if status is still ACTIVE, increment task_current
and evaluate task_list[task_current].start(...); incrementing a None
task_current raises TypeError, and an out-of-range subscript raises
IndexError after the increment already happened. -/
def Job.next_task {tau : Type} (j : Job tau) : JobStep tau :=
  if j.status = JobStatus.ACTIVE then
    match j.task_current with
    | none => { job := j, events := [], err := some "TypeError" }
    | some c =>
      let j1 := { j with task_current := some (c + 1) }
      if c + 1 < j1.task_list.length then
        { job := j1, events := [JobEvent.taskStart j1.mex_id (c + 1)], err := none }
      else
        { job := j1, events := [], err := some "IndexError" }
  else
    { job := j, events := [], err := none }

/-- Embeds Job.task_cb(data) with data = (task_id, task_status).  Processing
is gated solely on task_id == task_current (a Python int never equals None);
there is no check of the job status.  On SUCCEEDED with tasks remaining it
calls next_task; on SUCCEEDED at the last task it sets SUCCEEDED and calls
the completion callback; on CANCELLED or ABORTED it sets ABORTED and calls
the completion callback; on ACTIVE (and on PENDING, which no branch handles)
it does nothing.  A mismatched task_id only logs a warning. -/
def Job.task_cb {tau : Type} (j : Job tau) (data : Nat × TaskStatus) : JobStep tau :=
  let task_id := data.1
  let task_status := data.2
  if some task_id = j.task_current then
    if task_status = TaskStatus.SUCCEEDED then
      if task_id + 1 < j.task_list.length then
        j.next_task
      else
        let j1 := { j with status := JobStatus.SUCCEEDED }
        { job := j1, events := [JobEvent.completion j1.id j1.mex_id], err := none }
    else if task_status = TaskStatus.CANCELLED ∨ task_status = TaskStatus.ABORTED then
      let j1 := { j with status := JobStatus.ABORTED }
      { job := j1, events := [JobEvent.completion j1.id j1.mex_id], err := none }
    else
      { job := j, events := [], err := none }
  else
    { job := j, events := [], err := none }

/-- Delivers a list of task callbacks to a job in order, collecting the
events of every step (a raised exception in Python would abort the caller,
but task_cb never raises, so plain sequencing is faithful). -/
def runCallbacks {tau : Type} (j : Job tau) : List (Nat × TaskStatus) → Job tau × List JobEvent
  | [] => (j, [])
  | d :: rest =>
    let s := j.task_cb d
    let r := runCallbacks s.job rest
    (r.1, s.events ++ r.2)

/-- Modelled from the spec: MobileExecutor.py is not among the sources.  The
spec lists executor statuses Standby, Assigned, ExecutingTask; JobActivation.py
uses exactly MExStatus.STANDBY, MExStatus.ASSIGNED, MExStatus.EXECUTING_TASK. -/
inductive MExStatus where
  | STANDBY
  | ASSIGNED
  | EXECUTING_TASK
deriving DecidableEq, Repr

/-- Modelled from the spec: MobileExecutor.py is not among the sources.  The
spec describes an executor as identity, status, and currently assigned job id
or none; job_allocator and job_refiner read and write exactly the fields
id, status and job_id of a MEx entry. -/
structure MEx where
  id : String
  status : MExStatus
  job_id : Option String
deriving DecidableEq, Repr

/-- Registry calls made by JobActivation.py, modelled as events:
call_assign_job(job_id, mex_id) and call_change_mex_status(mex_id, status). -/
inductive AllocEvent where
  | assignJob (job_id : String) (mex_id : Option String)
  | changeMexStatus (mex_id : Option String) (status : MExStatus)
deriving DecidableEq, Repr

/-- Python truthiness test of the job.mex_id attribute: `not job.mex_id` in
job_allocator is true when mex_id is None and also when it is the empty
string. -/
def pyFalsy : Option String → Bool
  | none => true
  | some s => s = ""

/-- Embeds the inner for-loop of job_allocator over mexs_list: find the first
MEx whose status is STANDBY and for which the job either has no pre-assigned
mex_id or the pre-assigned id equals this MEx id; mark it ASSIGNED, record
the job id on it, and return its id together with the updated list.  A run
with no match leaves the list unchanged (no MEx was mutated). -/
def mexScan {tau : Type} (job : Job tau) : List MEx → Option (String × List MEx)
  | [] => none
  | mex :: rest =>
    if mex.status = MExStatus.STANDBY ∧ (pyFalsy job.mex_id ∨ job.mex_id = some mex.id) then
      some (mex.id, { mex with status := MExStatus.ASSIGNED, job_id := some job.id } :: rest)
    else
      match mexScan job rest with
      | none => none
      | some (mid, rest1) => some (mid, mex :: rest1)

/-- Embeds the outer for-loop of job_allocator over pending_jobs_list: scan
in queue order; a job whose status is not PENDING is skipped, and a PENDING
job whose inner scan finds no standby match is also passed over (the loop
simply continues; nothing breaks it).  On the first PENDING job with a
match, apply job.assign_mex(mex.id) and stop (allocated_job_index makes the
next outer iteration break).  Returns the allocated index, the mutated job,
and the updated mexs list. -/
def pendingScan {tau : Type} : List (Job tau) → List MEx → Option (Nat × Job tau × List MEx)
  | [], _ => none
  | job :: rest, mexs =>
    if job.status = JobStatus.PENDING then
      match mexScan job mexs with
      | some (mid, mexs1) => some (0, job.assign_mex mid, mexs1)
      | none =>
        match pendingScan rest mexs with
        | none => none
        | some (i, rough, mexs1) => some (i + 1, rough, mexs1)
    else
      match pendingScan rest mexs with
      | none => none
      | some (i, rough, mexs1) => some (i + 1, rough, mexs1)

/-- Result of job_refiner: the active list, the local mexs list, the refined
job object, the events emitted, and the Python return value (None in the ret
field when an exception propagated out instead of a return). -/
structure RefineResult (tau : Type) where
  active : List (Job tau)
  mexs : List MEx
  job : Job tau
  jobEvents : List JobEvent
  regEvents : List AllocEvent
  ret : Option Nat
  err : Option String
deriving DecidableEq, Repr

/-- Embeds job_refiner of src/src/JobManager/JobActivation.py: the rough job
passes through unrefined (the capability-based refinement is a TODO), then
refined_job.start_job() runs; if it raises, the exception propagates and
nothing further happens.  Otherwise every mexs_list entry whose id equals
the job's mex_id and whose job_id equals the job's id is set to
EXECUTING_TASK, the registry is told of the new status, the job is appended
to active_jobs_list and 0 is returned. -/
def job_refiner {tau : Type} (active_jobs_list : List (Job tau)) (mexs_list : List MEx)
    (rough_job : Job tau) : RefineResult tau :=
  let s := rough_job.start_job
  match s.err with
  | some e =>
    { active := active_jobs_list, mexs := mexs_list, job := s.job,
      jobEvents := s.events, regEvents := [], ret := none, err := some e }
  | none =>
    let refined := s.job
    let mexs1 := mexs_list.map (fun m =>
      if some m.id = refined.mex_id ∧ m.job_id = some refined.id then
        { m with status := MExStatus.EXECUTING_TASK }
      else m)
    { active := active_jobs_list ++ [refined], mexs := mexs1, job := refined,
      jobEvents := s.events,
      regEvents := [AllocEvent.changeMexStatus refined.mex_id MExStatus.EXECUTING_TASK],
      ret := some 0, err := none }

/-- Result of job_allocator: the pending and active lists, the local mexs
snapshot, emitted events, and the Python return value (1 for an allocation
miss, otherwise the refiner result; None in ret when an exception
propagated). -/
structure AllocResult (tau : Type) where
  pending : List (Job tau)
  active : List (Job tau)
  mexs : List MEx
  jobEvents : List JobEvent
  regEvents : List AllocEvent
  ret : Option Nat
  err : Option String
deriving DecidableEq, Repr

/-- Embeds job_allocator of src/src/JobManager/JobActivation.py.  The
caller's mexs_list argument is discarded in favour of a fresh snapshot from
call_get_mex_list(), supplied here as fresh_mexs.  If the scan allocated a
job, that job is popped from pending_jobs_list, call_assign_job is issued,
and job_refiner's result is returned; otherwise error_code 1 (set by the
for/else when the outer loop ends without a break) is returned and nothing
changed. -/
def job_allocator {tau : Type} (pending_jobs_list active_jobs_list : List (Job tau))
    (fresh_mexs : List MEx) : AllocResult tau :=
  match pendingScan pending_jobs_list fresh_mexs with
  | none =>
    { pending := pending_jobs_list, active := active_jobs_list, mexs := fresh_mexs,
      jobEvents := [], regEvents := [], ret := some 1, err := none }
  | some (i, rough, mexs1) =>
    let pending1 := pending_jobs_list.eraseIdx i
    let r := job_refiner active_jobs_list mexs1 rough
    { pending := pending1, active := r.active, mexs := r.mexs,
      jobEvents := r.jobEvents,
      regEvents := AllocEvent.assignJob rough.id rough.mex_id :: r.regEvents,
      ret := r.ret, err := r.err }

/-- Payload of a task-to-job callback call job_callback([task_id, status]):
task_id as bound at start, and a TaskStatus or None (RobotMoveBase.done_cb
passes None for unmapped action statuses). -/
structure TaskCbCall where
  task_id : Option Nat
  status : Option TaskStatus
deriving DecidableEq, Repr

/-- Embeds the RobotMoveBase task class of src/src/task_class.py.  location
is carried opaquely (type pi).  The attributes task_id, job_callback and
navclient are not created by __init__; absence is modelled by none/false.
A bound callback or an action client object is always truthy, so presence
doubles as the truthiness test.  The action client created by move_robot is
abstracted by the raw move_base state code its get_state() reports. -/
structure RobotMoveBase (pi : Type) where
  id : Option String
  location : pi
  task_id : Option Nat
  job_callback : Bool
  navclient : Option Nat
deriving DecidableEq, Repr

/-- Embeds RobotMoveBase.__init__: id None, the goal location stored, and no
task_id, job_callback or navclient attribute yet. -/
def RobotMoveBase.new (pi : Type) (location : pi) : RobotMoveBase pi :=
  { id := none, location := location, task_id := none, job_callback := false,
    navclient := none }

/-- Embeds RobotMoveBase.start followed by its move_robot call: binds the
robot id, the task index and the job callback, then creates the action
client and sends the goal; nav_state abstracts the created client. -/
def RobotMoveBase.start {pi : Type} (t : RobotMoveBase pi) (robot_id : String)
    (task_id : Nat) (nav_state : Nat) : RobotMoveBase pi :=
  { t with id := some robot_id, task_id := some task_id,
           job_callback := true, navclient := some nav_state }

/-- Embeds RobotMoveBase.done_cb(status, result): maps move_base status 3 to
SUCCEEDED, 2 or 8 to CANCELLED, 4 to ABORTED, anything else to None (the
three if-statements are mutually exclusive); then, job_callback being bound
(an unbound attribute would raise AttributeError), it always invokes
job_callback([task_id, callback_status]). -/
def RobotMoveBase.done_cb {pi : Type} (t : RobotMoveBase pi) (status : Nat) :
    Except String (List TaskCbCall) :=
  let callback_status : Option TaskStatus :=
    if status = 3 then some TaskStatus.SUCCEEDED
    else if status = 2 ∨ status = 8 then some TaskStatus.CANCELLED
    else if status = 4 then some TaskStatus.ABORTED
    else none
  if t.job_callback then
    Except.ok [{ task_id := t.task_id, status := callback_status }]
  else
    Except.error "AttributeError"

/-- Embeds RobotMoveBase.get_status: reading self.navclient before
move_robot ever assigned it raises AttributeError; once assigned it is a
truthy client object, so the method returns navclient.get_state() and the
return-None else branch of the code is unreachable. -/
def RobotMoveBase.get_status {pi : Type} (t : RobotMoveBase pi) :
    Except String (Option Nat) :=
  match t.navclient with
  | some c => Except.ok (some c)
  | none => Except.error "AttributeError"

/-- Embeds the AwaitingLoadCompletion task class of src/src/task_class.py.
The attributes task_id and job_callback are created by start, not __init__;
subscribed tracks the LoadInput topic subscription. -/
structure AwaitingLoadCompletion where
  id : Option String
  status : TaskStatus
  task_id : Option Nat
  job_callback : Bool
  subscribed : Bool
deriving DecidableEq, Repr

/-- Embeds AwaitingLoadCompletion.__init__: id None, status PENDING, no
task_id or job_callback attribute, not subscribed. -/
def AwaitingLoadCompletion.new : AwaitingLoadCompletion :=
  { id := none, status := TaskStatus.PENDING, task_id := none,
    job_callback := false, subscribed := false }

/-- Embeds AwaitingLoadCompletion.start: binds robot id, task index and job
callback, sets status ACTIVE and subscribes to the LoadInput topic. -/
def AwaitingLoadCompletion.start (t : AwaitingLoadCompletion) (robot_id : String)
    (task_id : Nat) : AwaitingLoadCompletion :=
  { t with id := some robot_id, task_id := some task_id,
           job_callback := true, status := TaskStatus.ACTIVE, subscribed := true }

/-- Embeds AwaitingLoadCompletion.input_cb(data): reading self.job_callback
on a never-started instance raises AttributeError; on a started one, input
3/2/4 sets status SUCCEEDED/CANCELLED/ABORTED and unsubscribes, any other
input leaves the status as it was, and in every case the method then calls
job_callback([task_id, status]) with the current status. -/
def AwaitingLoadCompletion.input_cb (t : AwaitingLoadCompletion) (data : Nat) :
    Except String (AwaitingLoadCompletion × List TaskCbCall) :=
  if t.job_callback then
    let st :=
      if data = 3 then TaskStatus.SUCCEEDED
      else if data = 2 then TaskStatus.CANCELLED
      else if data = 4 then TaskStatus.ABORTED
      else t.status
    let sub := if data = 2 ∨ data = 3 ∨ data = 4 then false else t.subscribed
    Except.ok ({ t with status := st, subscribed := sub },
      [{ task_id := t.task_id, status := some st }])
  else
    Except.error "AttributeError"

/-- Embeds AwaitingLoadCompletion.get_status: returns self.status, which is
PENDING until start runs. -/
def AwaitingLoadCompletion.get_status (t : AwaitingLoadCompletion) : TaskStatus :=
  t.status

/-- True exactly on call_assign_job registry events. -/
def AllocEvent.isAssignJob : AllocEvent → Bool
  | .assignJob _ _ => true
  | _ => false

/-- The inner-loop match condition of job_allocator, stated as a predicate on
the whole snapshot: some executor is STANDBY and acceptable for the job
(no pre-assigned mex_id in the Python-truthiness sense, or equal ids). -/
def canMatch {tau : Type} (job : Job tau) (mexs : List MEx) : Prop :=
  ∃ m ∈ mexs, m.status = MExStatus.STANDBY ∧
    (pyFalsy job.mex_id = true ∨ job.mex_id = some m.id)

instance {tau : Type} (job : Job tau) (mexs : List MEx) : Decidable (canMatch job mexs) := by
  unfold canMatch
  exact List.decidableBEx _ mexs

/-- The callback sequence (c, SUCCEEDED), (c+1, SUCCEEDED), ...: k entries
with consecutive indices starting at c. -/
def succSeq : Nat → Nat → List (Nat × TaskStatus)
  | _, 0 => []
  | c, k + 1 => (c, TaskStatus.SUCCEEDED) :: succSeq (c + 1) k

/-- The event sequence taskStart m c, taskStart m (c+1), ...: k entries with
consecutive indices starting at c. -/
def startsSeq (m : Option String) : Nat → Nat → List JobEvent
  | _, 0 => []
  | c, k + 1 => JobEvent.taskStart m c :: startsSeq m (c + 1) k

/-- Construction, assignment and start of a job, composed exactly as the
spec's round trip prescribes: Job.__init__ with no pre-assigned executor,
add_tasks, assign_mex, start_job. -/
def setupJob (tau : Type) (job_id : String) (kw : OrderKeyword) (pr : JobPriority)
    (mex : String) (ts : List tau) : JobStep tau :=
  (((Job.new tau job_id kw none pr).add_tasks ts).assign_mex mex).start_job

/-- Concrete job over opaque Unit tasks, for counterexamples and witnesses. -/
def mkJob (job_id : String) (mex_id : Option String) (status : JobStatus)
    (task_current : Option Nat) (n : Nat) : Job Unit :=
  { id := job_id, mex_id := mex_id, status := status, task_count := n,
    task_current := task_current, task_list := List.replicate n (),
    priority := JobPriority.LOW, keyword := OrderKeyword.MOVE }

/-- Concrete standby executor with no assigned job, for counterexamples and
witnesses. -/
def sampleMex (mex_id : String) : MEx :=
  { id := mex_id, status := MExStatus.STANDBY, job_id := none }

/-! Helper lemmas shared between several claims. -/

/-- assign_mex never changes the job id. -/
theorem assign_mex_id {tau : Type} (j : Job tau) (m : String) :
    (j.assign_mex m).id = j.id := by
  unfold Job.assign_mex
  split <;> rfl

/-- assign_mex on a PENDING job sets the mex id and moves to ASSIGNED. -/
theorem assign_mex_of_pending {tau : Type} (j : Job tau) (m : String)
    (h : j.status = JobStatus.PENDING) :
    j.assign_mex m = { j with mex_id := some m, status := JobStatus.ASSIGNED } := by
  unfold Job.assign_mex
  rw [if_pos (Or.inl h)]

/-- startsSeq consists only of task-start events. -/
theorem startsSeq_filter_isTaskStart (m : Option String) (k : Nat) :
    ∀ c, (startsSeq m c k).filter JobEvent.isTaskStart = startsSeq m c k := by
  induction k with
  | zero => intro c; rfl
  | succ k ih => intro c; simp [startsSeq, JobEvent.isTaskStart, ih]

/-- startsSeq contains no completion events. -/
theorem startsSeq_filter_isCompletion (m : Option String) (k : Nat) :
    ∀ c, (startsSeq m c k).filter JobEvent.isCompletion = [] := by
  induction k with
  | zero => intro c; rfl
  | succ k ih => intro c; simp [startsSeq, JobEvent.isCompletion, ih]

/-- startsSeq is the mapped index range. -/
theorem startsSeq_eq_range' (m : Option String) (k : Nat) :
    ∀ c, startsSeq m c k = (List.range' c k).map (fun i => JobEvent.taskStart m i) := by
  induction k with
  | zero => intro c; rfl
  | succ k ih => intro c; rw [List.range'_succ]; simp [startsSeq, ih]

/-- succSeq is the mapped index range. -/
theorem succSeq_eq_range' (k : Nat) :
    ∀ c, succSeq c k = (List.range' c k).map (fun i => (i, TaskStatus.SUCCEEDED)) := by
  induction k with
  | zero => intro c; rfl
  | succ k ih => intro c; rw [List.range'_succ]; simp [succSeq, ih]

/-- Main induction for the round trip: an ACTIVE job with current task c and
k+1 tasks left (length = c+k+1) that receives SUCCEEDED callbacks for
indices c, c+1, ..., c+k in order starts tasks c+1..c+k in order, ends
SUCCEEDED with current task c+k, and fires exactly one completion event. -/
theorem runCallbacks_succSeq {tau : Type} (k : Nat) :
    ∀ (j : Job tau) (c : Nat), j.status = JobStatus.ACTIVE → j.task_current = some c →
      j.task_list.length = c + k + 1 →
      runCallbacks j (succSeq c (k + 1)) =
        ({ j with status := JobStatus.SUCCEEDED, task_current := some (c + k) },
         startsSeq j.mex_id (c + 1) k ++ [JobEvent.completion j.id j.mex_id]) := by
  induction k with
  | zero =>
    intro j c hst hcur hlen
    obtain ⟨jid, jmex, jst, jcnt, jcur, jtl, jpr, jkw⟩ := j
    simp only at hst hcur hlen
    subst hst
    subst hcur
    simp [succSeq, startsSeq, runCallbacks, Job.task_cb, hlen]
  | succ k ih =>
    intro j c hst hcur hlen
    have h1 : c + 1 < j.task_list.length := by omega
    have hstep : j.task_cb (c, TaskStatus.SUCCEEDED) =
        { job := { j with task_current := some (c + 1) },
          events := [JobEvent.taskStart j.mex_id (c + 1)], err := none } := by
      simp only [Job.task_cb, Job.next_task]
      rw [hcur]
      simp [h1, hst, hcur]
    have hlen1 : (({ j with task_current := some (c + 1) } : Job tau)).task_list.length
        = (c + 1) + k + 1 := by
      show j.task_list.length = (c + 1) + k + 1
      omega
    have hrec := ih { j with task_current := some (c + 1) } (c + 1) hst rfl hlen1
    have hcons : runCallbacks j (succSeq c (k + 1 + 1)) =
        ((runCallbacks (j.task_cb (c, TaskStatus.SUCCEEDED)).job (succSeq (c + 1) (k + 1))).1,
         (j.task_cb (c, TaskStatus.SUCCEEDED)).events ++
           (runCallbacks (j.task_cb (c, TaskStatus.SUCCEEDED)).job (succSeq (c + 1) (k + 1))).2) :=
      rfl
    rw [hcons, hstep]
    rw [hrec]
    have harith : c + 1 + k = c + (k + 1) := by omega
    simp [startsSeq, harith]

/-- The inner scan finds nothing exactly when no snapshot entry satisfies
the match condition. -/
theorem mexScan_eq_none_iff {tau : Type} (job : Job tau) :
    ∀ mexs : List MEx, mexScan job mexs = none ↔ ¬ canMatch job mexs := by
  intro mexs
  induction mexs with
  | nil =>
    simp [mexScan, canMatch]
  | cons mex rest ih =>
    by_cases h : mex.status = MExStatus.STANDBY ∧
        (pyFalsy job.mex_id = true ∨ job.mex_id = some mex.id)
    · simp only [mexScan]
      rw [if_pos h]
      exact iff_of_false (by simp) (fun hnc => hnc ⟨mex, List.mem_cons_self _ _, h⟩)
    · simp only [mexScan]
      rw [if_neg h]
      cases hrec : mexScan job rest with
      | none =>
        refine iff_of_true rfl ?_
        rintro ⟨m, hm, hPm⟩
        rcases List.mem_cons.mp hm with rfl | hm2
        · exact h hPm
        · exact (ih.mp hrec) ⟨m, hm2, hPm⟩
      | some p =>
        obtain ⟨mid, rest1⟩ := p
        refine iff_of_false (by simp) ?_
        intro hnc
        have hcm : canMatch job rest := by
          by_contra hnot
          rw [ih.mpr hnot] at hrec
          exact absurd hrec (by simp)
        rcases hcm with ⟨m, hm, hPm⟩
        exact hnc ⟨m, List.mem_cons_of_mem _ hm, hPm⟩

/-- A successful inner scan only ever returns an executor id permitted by
the match condition: either the job had no (truthy) pre-assigned mex_id, or
the returned id is exactly the pre-assigned one. -/
theorem mexScan_some_cond {tau : Type} (job : Job tau) :
    ∀ (mexs : List MEx) (mid : String) (mexs1 : List MEx),
      mexScan job mexs = some (mid, mexs1) →
      pyFalsy job.mex_id = true ∨ job.mex_id = some mid := by
  intro mexs
  induction mexs with
  | nil => intro mid mexs1 h; simp [mexScan] at h
  | cons mex rest ih =>
    intro mid mexs1 h
    simp only [mexScan] at h
    by_cases hc : mex.status = MExStatus.STANDBY ∧
        (pyFalsy job.mex_id = true ∨ job.mex_id = some mex.id)
    · rw [if_pos hc] at h
      have hmid : mex.id = mid := congrArg (fun x => x.1) (Option.some.inj h)
      rw [← hmid]
      exact hc.2
    · rw [if_neg hc] at h
      cases hrec : mexScan job rest with
      | none => rw [hrec] at h; exact absurd h (by simp)
      | some p =>
        obtain ⟨mid2, rest1⟩ := p
        rw [hrec] at h
        have h1 : mid2 = mid := congrArg Prod.fst (Option.some.inj h)
        exact h1 ▸ ih mid2 rest1 hrec

/-- Shape of a successful outer scan: the returned index points at a PENDING
job in the queue, the inner scan succeeded on that job with the returned
snapshot, and the returned job is that job after assign_mex. -/
theorem pendingScan_spec {tau : Type} :
    ∀ (pjs : List (Job tau)) (mexs : List MEx) (i : Nat) (rough : Job tau)
      (mexs1 : List MEx),
      pendingScan pjs mexs = some (i, rough, mexs1) →
      ∃ (h : i < pjs.length) (mid : String),
        (pjs.get ⟨i, h⟩).status = JobStatus.PENDING ∧
        mexScan (pjs.get ⟨i, h⟩) mexs = some (mid, mexs1) ∧
        rough = (pjs.get ⟨i, h⟩).assign_mex mid := by
  intro pjs
  induction pjs with
  | nil => intro mexs i rough mexs1 h; simp [pendingScan] at h
  | cons job rest ih =>
    intro mexs i rough mexs1 h
    simp only [pendingScan] at h
    by_cases hp : job.status = JobStatus.PENDING
    · rw [if_pos hp] at h
      cases hms : mexScan job mexs with
      | some p =>
        obtain ⟨mid, mexs2⟩ := p
        rw [hms] at h
        obtain ⟨h1, h2, h3⟩ : 0 = i ∧ job.assign_mex mid = rough ∧ mexs2 = mexs1 := by
          have := Option.some.inj h
          exact ⟨congrArg (fun x => x.1) this,
            congrArg (fun x => x.2.1) this, congrArg (fun x => x.2.2) this⟩
        subst h1; subst h3
        exact ⟨by simp, mid, hp, hms, h2.symm⟩
      | none =>
        rw [hms] at h
        cases hrec : pendingScan rest mexs with
        | none => rw [hrec] at h; exact absurd h (by simp)
        | some q =>
          obtain ⟨i2, rough2, mexs2⟩ := q
          rw [hrec] at h
          obtain ⟨hlt, mid, ha, hb, hc⟩ := ih mexs i2 rough2 mexs2 hrec
          obtain ⟨h1, h2, h3⟩ : i2 + 1 = i ∧ rough2 = rough ∧ mexs2 = mexs1 := by
            have := Option.some.inj h
            exact ⟨congrArg (fun x => x.1) this,
              congrArg (fun x => x.2.1) this, congrArg (fun x => x.2.2) this⟩
          subst h1; subst h2; subst h3
          exact ⟨by simpa using Nat.succ_lt_succ hlt, mid, ha, hb, hc⟩
    · rw [if_neg hp] at h
      cases hrec : pendingScan rest mexs with
      | none => rw [hrec] at h; exact absurd h (by simp)
      | some q =>
        obtain ⟨i2, rough2, mexs2⟩ := q
        rw [hrec] at h
        obtain ⟨hlt, mid, ha, hb, hc⟩ := ih mexs i2 rough2 mexs2 hrec
        obtain ⟨h1, h2, h3⟩ : i2 + 1 = i ∧ rough2 = rough ∧ mexs2 = mexs1 := by
          have := Option.some.inj h
          exact ⟨congrArg (fun x => x.1) this,
            congrArg (fun x => x.2.1) this, congrArg (fun x => x.2.2) this⟩
        subst h1; subst h2; subst h3
        exact ⟨by simpa using Nat.succ_lt_succ hlt, mid, ha, hb, hc⟩

/-- The outer scan finds nothing exactly when no PENDING job in the queue
has a matching standby executor. -/
theorem pendingScan_eq_none_iff {tau : Type} :
    ∀ (pjs : List (Job tau)) (mexs : List MEx),
      pendingScan pjs mexs = none ↔
        ∀ j ∈ pjs, j.status = JobStatus.PENDING → ¬ canMatch j mexs := by
  intro pjs
  induction pjs with
  | nil => intro mexs; simp [pendingScan]
  | cons job rest ih =>
    intro mexs
    simp only [pendingScan]
    by_cases hp : job.status = JobStatus.PENDING
    · rw [if_pos hp]
      cases hms : mexScan job mexs with
      | some p =>
        refine iff_of_false (by cases p; simp) ?_
        intro hall
        have : mexScan job mexs = none :=
          (mexScan_eq_none_iff job mexs).mpr (hall job (List.mem_cons_self _ _) hp)
        rw [this] at hms
        exact absurd hms (by simp)
      | none =>
        cases hrec : pendingScan rest mexs with
        | none =>
          refine iff_of_true rfl ?_
          intro j hj hjp
          rcases List.mem_cons.mp hj with rfl | hj2
          · exact (mexScan_eq_none_iff j mexs).mp hms
          · exact (ih mexs).mp hrec j hj2 hjp
        | some q =>
          refine iff_of_false (by obtain ⟨a, b, c⟩ := q; simp) ?_
          intro hall
          have : pendingScan rest mexs = none :=
            (ih mexs).mpr (fun j hj => hall j (List.mem_cons_of_mem _ hj))
          rw [this] at hrec
          exact absurd hrec (by simp)
    · rw [if_neg hp]
      cases hrec : pendingScan rest mexs with
      | none =>
        refine iff_of_true rfl ?_
        intro j hj hjp
        rcases List.mem_cons.mp hj with rfl | hj2
        · exact absurd hjp hp
        · exact (ih mexs).mp hrec j hj2 hjp
      | some q =>
        refine iff_of_false (by obtain ⟨a, b, c⟩ := q; simp) ?_
        intro hall
        have : pendingScan rest mexs = none :=
          (ih mexs).mpr (fun j hj => hall j (List.mem_cons_of_mem _ hj))
        rw [this] at hrec
        exact absurd hrec (by simp)

/-- The outer scan picks exactly the first index whose job is PENDING and
matchable: if index i is PENDING and matchable and nothing before it is,
the scan returns index i with that job after assign_mex. -/
theorem pendingScan_first {tau : Type} :
    ∀ (pjs : List (Job tau)) (mexs : List MEx) (i : Nat) (h : i < pjs.length),
      (pjs.get ⟨i, h⟩).status = JobStatus.PENDING →
      canMatch (pjs.get ⟨i, h⟩) mexs →
      (∀ jb ∈ pjs.take i, ¬(jb.status = JobStatus.PENDING ∧ canMatch jb mexs)) →
      ∃ (mid : String) (mexs1 : List MEx),
        pendingScan pjs mexs = some (i, (pjs.get ⟨i, h⟩).assign_mex mid, mexs1) := by
  intro pjs
  induction pjs with
  | nil => intro mexs i h; exact absurd h (by simp)
  | cons job rest ih =>
    intro mexs i h hpend hcm hbefore
    cases i with
    | zero =>
      have hms : mexScan job mexs ≠ none := fun hnone =>
        ((mexScan_eq_none_iff job mexs).mp hnone) (by simpa using hcm)
      cases hval : mexScan job mexs with
      | none => exact absurd hval hms
      | some p =>
        obtain ⟨mid, mexs1⟩ := p
        refine ⟨mid, mexs1, ?_⟩
        simp only [pendingScan]
        rw [if_pos (by simpa using hpend), hval]
        rfl
    | succ i2 =>
      have hfirst : ¬(job.status = JobStatus.PENDING ∧ canMatch job mexs) :=
        hbefore job (by simp [List.take_succ_cons])
      have h2 : i2 < rest.length := by simpa using Nat.lt_of_succ_lt_succ h
      have hbefore2 : ∀ jb ∈ rest.take i2, ¬(jb.status = JobStatus.PENDING ∧ canMatch jb mexs) :=
        fun jb hjb => hbefore jb (by simp [List.take_succ_cons, hjb])
      obtain ⟨mid, mexs1, hps⟩ := ih mexs i2 h2 (by simpa using hpend) (by simpa using hcm)
        hbefore2
      refine ⟨mid, mexs1, ?_⟩
      simp only [pendingScan]
      by_cases hp : job.status = JobStatus.PENDING
      · rw [if_pos hp]
        have hms : mexScan job mexs = none :=
          (mexScan_eq_none_iff job mexs).mpr (fun hcm2 => hfirst ⟨hp, hcm2⟩)
        rw [hms, hps]
        rfl
      · rw [if_neg hp, hps]
        rfl

/-- Two members of a list with equal images under an injectively-mapped
(Nodup) function are the same element. -/
theorem nodup_map_mem_inj {alpha beta : Type} (f : alpha → beta) :
    ∀ (l : List alpha), (l.map f).Nodup →
      ∀ a ∈ l, ∀ b ∈ l, f a = f b → a = b := by
  intro l
  induction l with
  | nil => intro _ a ha; exact absurd ha (by simp)
  | cons x xs ih =>
    intro hnd a ha b hb hfab
    rw [List.map_cons, List.nodup_cons] at hnd
    obtain ⟨hx, hxs⟩ := hnd
    rcases List.mem_cons.mp ha with rfl | ha2
    · rcases List.mem_cons.mp hb with rfl | hb2
      · rfl
      · exact absurd (hfab ▸ List.mem_map_of_mem f hb2) hx
    · rcases List.mem_cons.mp hb with rfl | hb2
      · exact absurd (hfab ▸ List.mem_map_of_mem f ha2) hx
      · exact ih hxs a ha2 b hb2 hfab

/-- A member of eraseIdx i is a member of the original list. -/
theorem mem_of_mem_eraseIdx {alpha : Type} :
    ∀ (l : List alpha) (i : Nat) (a : alpha), a ∈ l.eraseIdx i → a ∈ l := by
  intro l
  induction l with
  | nil => intro i a ha; simp [List.eraseIdx] at ha
  | cons x xs ih =>
    intro i a ha
    cases i with
    | zero => exact List.mem_cons_of_mem _ (by simpa [List.eraseIdx] using ha)
    | succ i2 =>
      rcases List.mem_cons.mp (by simpa [List.eraseIdx] using ha) with rfl | h2
      · exact List.mem_cons_self _ _
      · exact List.mem_cons_of_mem _ (ih i2 a h2)

/-- Under Nodup of the mapped list, a member of eraseIdx i never shares its
image with the erased element at index i. -/
theorem eraseIdx_map_ne {alpha beta : Type} (f : alpha → beta) :
    ∀ (l : List alpha) (i : Nat) (h : i < l.length), (l.map f).Nodup →
      ∀ a ∈ l.eraseIdx i, f a ≠ f (l.get ⟨i, h⟩) := by
  intro l
  induction l with
  | nil => intro i h; exact absurd h (by simp)
  | cons x xs ih =>
    intro i h hnd a ha
    rw [List.map_cons, List.nodup_cons] at hnd
    obtain ⟨hx, hxs⟩ := hnd
    cases i with
    | zero =>
      have ha2 : a ∈ xs := by simpa [List.eraseIdx] using ha
      intro heq
      exact hx (heq ▸ List.mem_map_of_mem f ha2)
    | succ i2 =>
      have h2 : i2 < xs.length := by simpa using Nat.lt_of_succ_lt_succ h
      have hget : ((x :: xs).get ⟨i2 + 1, h⟩) = xs.get ⟨i2, h2⟩ := rfl
      rcases List.mem_cons.mp (by simpa [List.eraseIdx] using ha) with rfl | h3
      · rw [hget]
        intro heq
        exact hx (heq ▸ List.mem_map_of_mem f (List.get_mem xs i2 h2))
      · rw [hget]
        exact ih i2 h2 hxs a h3

/-- start_job never changes the job id. -/
theorem start_job_id {tau : Type} (j : Job tau) : (j.start_job).job.id = j.id := by
  simp only [Job.start_job]
  repeat' split
  all_goals simp

/-! Theorems settling the claims. -/

/-- C2: a job constructed PENDING with N >= 1 tasks, assigned an executor
and started, that receives the N task callbacks (i, SUCCEEDED) in index
order, ends SUCCEEDED, has started each task exactly once in list order
(the task-start events are exactly taskStart 0, ..., taskStart (N-1)), and
has invoked its completion callback exactly once with the original job id
and the bound executor id. -/
theorem C2_round_trip {tau : Type} (N : Nat) (hN : 1 ≤ N) (job_id mex : String)
    (kw : OrderKeyword) (pr : JobPriority) (ts : List tau) (hts : ts.length = N) :
    (setupJob tau job_id kw pr mex ts).err = none ∧
    (runCallbacks (setupJob tau job_id kw pr mex ts).job
        ((List.range N).map (fun i => (i, TaskStatus.SUCCEEDED)))).1.status =
      JobStatus.SUCCEEDED ∧
    ((setupJob tau job_id kw pr mex ts).events ++
        (runCallbacks (setupJob tau job_id kw pr mex ts).job
          ((List.range N).map (fun i => (i, TaskStatus.SUCCEEDED)))).2).filter
        JobEvent.isTaskStart =
      (List.range N).map (fun i => JobEvent.taskStart (some mex) i) ∧
    ((setupJob tau job_id kw pr mex ts).events ++
        (runCallbacks (setupJob tau job_id kw pr mex ts).job
          ((List.range N).map (fun i => (i, TaskStatus.SUCCEEDED)))).2).filter
        JobEvent.isCompletion =
      [JobEvent.completion job_id (some mex)] := by
  obtain ⟨k, rfl⟩ : ∃ k, N = k + 1 := ⟨N - 1, by omega⟩
  have hsetup : setupJob tau job_id kw pr mex ts =
      { job := { id := job_id, mex_id := some mex, status := JobStatus.ACTIVE,
                 task_count := ts.length, task_current := some 0, task_list := ts,
                 priority := pr, keyword := kw },
        events := [JobEvent.taskStart (some mex) 0], err := none } := by
    unfold setupJob Job.new Job.add_tasks Job.assign_mex Job.start_job
    have hpos : 0 < ts.length := by omega
    simp [hpos]
  have hseq : (List.range (k + 1)).map (fun i => (i, TaskStatus.SUCCEEDED)) =
      succSeq 0 (k + 1) := by
    rw [List.range_eq_range', succSeq_eq_range']
  have hseq2 : (List.range (k + 1)).map (fun i => JobEvent.taskStart (some mex) i) =
      startsSeq (some mex) 0 (k + 1) := by
    rw [List.range_eq_range', startsSeq_eq_range']
  rw [hsetup, hseq, hseq2]
  have hrun := runCallbacks_succSeq k
    ({ id := job_id, mex_id := some mex, status := JobStatus.ACTIVE,
       task_count := ts.length, task_current := some 0, task_list := ts,
       priority := pr, keyword := kw } : Job tau) 0 rfl rfl (by simp [hts])
  rw [hrun]
  refine ⟨rfl, rfl, ?_, ?_⟩
  · simp [List.filter_append, startsSeq_filter_isTaskStart, startsSeq_filter_isCompletion,
      JobEvent.isTaskStart, JobEvent.isCompletion, startsSeq]
  · simp [List.filter_append, startsSeq_filter_isCompletion, JobEvent.isTaskStart,
      JobEvent.isCompletion]

/-- Witness for C2 at N = 2 with a concrete two-task job. -/
theorem C2_witness :
    (setupJob Unit "j1" OrderKeyword.MOVE JobPriority.LOW "e1" [(), ()]).err = none ∧
    (runCallbacks (setupJob Unit "j1" OrderKeyword.MOVE JobPriority.LOW "e1" [(), ()]).job
        ((List.range 2).map (fun i => (i, TaskStatus.SUCCEEDED)))).1.status =
      JobStatus.SUCCEEDED ∧
    ((setupJob Unit "j1" OrderKeyword.MOVE JobPriority.LOW "e1" [(), ()]).events ++
        (runCallbacks (setupJob Unit "j1" OrderKeyword.MOVE JobPriority.LOW "e1" [(), ()]).job
          ((List.range 2).map (fun i => (i, TaskStatus.SUCCEEDED)))).2).filter
        JobEvent.isTaskStart =
      (List.range 2).map (fun i => JobEvent.taskStart (some "e1") i) ∧
    ((setupJob Unit "j1" OrderKeyword.MOVE JobPriority.LOW "e1" [(), ()]).events ++
        (runCallbacks (setupJob Unit "j1" OrderKeyword.MOVE JobPriority.LOW "e1" [(), ()]).job
          ((List.range 2).map (fun i => (i, TaskStatus.SUCCEEDED)))).2).filter
        JobEvent.isCompletion =
      [JobEvent.completion "j1" (some "e1")] :=
  C2_round_trip 2 (by decide) "j1" "e1" OrderKeyword.MOVE JobPriority.LOW [(), ()] (by decide)

/-- C6: a task callback whose task_index differs from the job's current task
index leaves the Job entirely unchanged, emits no event (so no task is
started and the completion callback is not invoked) and raises nothing. -/
theorem C6_mismatch_frame {tau : Type} (j : Job tau) (d : Nat × TaskStatus)
    (h : some d.1 ≠ j.task_current) :
    j.task_cb d = { job := j, events := [], err := none } := by
  simp only [Job.task_cb]
  rw [if_neg h]

/-- Witness for C6 at a concrete job and mismatched callback index. -/
theorem C6_witness :
    (some 1 ≠ (mkJob "j1" (some "e1") JobStatus.ACTIVE (some 0) 2).task_current) ∧
    (mkJob "j1" (some "e1") JobStatus.ACTIVE (some 0) 2).task_cb (1, TaskStatus.SUCCEEDED) =
      { job := mkJob "j1" (some "e1") JobStatus.ACTIVE (some 0) 2, events := [], err := none } :=
  ⟨by decide, C6_mismatch_frame _ _ (by decide)⟩

/-- C10: start_job on an ASSIGNED job with an empty task list raises
IndexError from the task_list[0] subscript, after having already set the
status to ACTIVE and the current task index to 0, and starts no task. -/
theorem C10_empty_task_list {tau : Type} (j : Job tau)
    (h1 : j.status = JobStatus.ASSIGNED) (h2 : j.task_list = []) :
    j.start_job = { job := { j with status := JobStatus.ACTIVE, task_current := some 0 },
                    events := [], err := some "IndexError" } := by
  simp only [Job.start_job]
  rw [if_pos h1]
  simp [h2]

/-- Witness for C10 at a concrete ASSIGNED job with no tasks. -/
theorem C10_witness :
    (mkJob "j1" (some "e1") JobStatus.ASSIGNED none 0).status = JobStatus.ASSIGNED ∧
    (mkJob "j1" (some "e1") JobStatus.ASSIGNED none 0).task_list = [] ∧
    (mkJob "j1" (some "e1") JobStatus.ASSIGNED none 0).start_job =
      { job := { mkJob "j1" (some "e1") JobStatus.ASSIGNED none 0 with
                 status := JobStatus.ACTIVE, task_current := some 0 },
        events := [], err := some "IndexError" } :=
  ⟨by decide, by decide, C10_empty_task_list _ (by decide) (by decide)⟩

/-- C1, counterexample: task_cb is not gated on the job being ACTIVE, so a
job already in the terminal status SUCCEEDED that receives a further task
callback with matching task_index both changes its status (to ABORTED) and
invokes the completion callback again, refuting the claimed at-most-once
mechanism. -/
theorem C1_counterexample :
    ((mkJob "j1" (some "e1") JobStatus.SUCCEEDED (some 0) 1).task_cb
        (0, TaskStatus.ABORTED)).job.status = JobStatus.ABORTED ∧
    ((mkJob "j1" (some "e1") JobStatus.SUCCEEDED (some 0) 1).task_cb
        (0, TaskStatus.ABORTED)).events =
      [JobEvent.completion "j1" (some "e1")] := by
  decide

/-- C1, amended: within any single task_cb call the completion callback is
invoked at most once, and only when the callback's task_index equals the
current task index and the call leaves the job in SUCCEEDED or ABORTED; the
callback arguments are the job id and the bound executor id.  task_cb is
gated only on the index match, not on the job being ACTIVE, so at-most-once
over the whole lifetime holds only if each task index delivers at most one
terminal callback. -/
theorem C1_amended {tau : Type} (j : Job tau) (d : Nat × TaskStatus) :
    ((j.task_cb d).events.filter JobEvent.isCompletion).length ≤ 1 ∧
    (∀ e ∈ (j.task_cb d).events, e.isCompletion = true →
      some d.1 = j.task_current ∧
      ((j.task_cb d).job.status = JobStatus.SUCCEEDED ∨
        (j.task_cb d).job.status = JobStatus.ABORTED) ∧
      e = JobEvent.completion j.id j.mex_id) := by
  simp only [Job.task_cb, Job.next_task]
  repeat' split
  all_goals simp_all [JobEvent.isCompletion]

/-- Witness for C1's amended statement at a concrete job and callback. -/
theorem C1_witness :
    (((mkJob "j1" (some "e1") JobStatus.ACTIVE (some 0) 1).task_cb
        (0, TaskStatus.SUCCEEDED)).events.filter JobEvent.isCompletion).length ≤ 1 ∧
    (∀ e ∈ ((mkJob "j1" (some "e1") JobStatus.ACTIVE (some 0) 1).task_cb
        (0, TaskStatus.SUCCEEDED)).events, e.isCompletion = true →
      some (0 : Nat) = (mkJob "j1" (some "e1") JobStatus.ACTIVE (some 0) 1).task_current ∧
      (((mkJob "j1" (some "e1") JobStatus.ACTIVE (some 0) 1).task_cb
          (0, TaskStatus.SUCCEEDED)).job.status = JobStatus.SUCCEEDED ∨
        ((mkJob "j1" (some "e1") JobStatus.ACTIVE (some 0) 1).task_cb
          (0, TaskStatus.SUCCEEDED)).job.status = JobStatus.ABORTED) ∧
      e = JobEvent.completion "j1" (some "e1")) :=
  C1_amended (mkJob "j1" (some "e1") JobStatus.ACTIVE (some 0) 1) (0, TaskStatus.SUCCEEDED)

/-- C9, counterexample: get_status on a never-started RobotMoveBase does not
return PENDING; it raises AttributeError, because __init__ never creates the
navclient attribute that get_status reads. -/
theorem C9_counterexample :
    (RobotMoveBase.new Unit ()).get_status = Except.error "AttributeError" := rfl

/-- C9, amended: AwaitingLoadCompletion.get_status returns PENDING for a
never-started task and the current status in general; RobotMoveBase's
get_status raises AttributeError on a never-started task and, once started,
returns the navigation client's raw state rather than a TaskStatus. -/
theorem C9_amended {pi : Type} (loc : pi) (t : RobotMoveBase pi)
    (a : AwaitingLoadCompletion) (robot_id : String) (task_id nav_state : Nat) :
    AwaitingLoadCompletion.new.get_status = TaskStatus.PENDING ∧
    a.get_status = a.status ∧
    (RobotMoveBase.new pi loc).get_status = Except.error "AttributeError" ∧
    (t.start robot_id task_id nav_state).get_status = Except.ok (some nav_state) ∧
    (a.start robot_id task_id).get_status = TaskStatus.ACTIVE :=
  ⟨rfl, rfl, rfl, rfl, rfl⟩

/-- C5, counterexample: a started AwaitingLoadCompletion that receives the
non-terminal load input 1 (ACTIVE) does invoke the job callback, and does so
with the non-terminal status ACTIVE, refuting both the only-terminal-payload
and the exactly-once-per-start parts of the claim. -/
theorem C5_counterexample :
    (AwaitingLoadCompletion.new.start "r1" 0).input_cb 1 =
      Except.ok (AwaitingLoadCompletion.new.start "r1" 0,
        [{ task_id := some 0, status := some TaskStatus.ACTIVE }]) ∧
    TaskStatus.ACTIVE ≠ TaskStatus.SUCCEEDED ∧
    TaskStatus.ACTIVE ≠ TaskStatus.CANCELLED ∧
    TaskStatus.ACTIVE ≠ TaskStatus.ABORTED :=
  ⟨rfl, by decide⟩

/-- C5, amended: a started RobotMoveBase invokes its callback exactly once
per done event, with payload status SUCCEEDED for action status 3, CANCELLED
for 2 or 8, ABORTED for 4, and None for every other (unmapped) code; a
started AwaitingLoadCompletion invokes its callback exactly once for every
received input, reporting the corresponding terminal status and
unsubscribing for inputs 2, 3, 4, and reporting its unchanged current
status without unsubscribing for any other input. -/
theorem C5_amended {pi : Type} (t : RobotMoveBase pi) (st : Nat)
    (a : AwaitingLoadCompletion) (d : Nat)
    (ht : t.job_callback = true) (ha : a.job_callback = true) :
    (∃ c, t.done_cb st = Except.ok [{ task_id := t.task_id, status := c }] ∧
      (st = 3 → c = some TaskStatus.SUCCEEDED) ∧
      (st = 2 ∨ st = 8 → c = some TaskStatus.CANCELLED) ∧
      (st = 4 → c = some TaskStatus.ABORTED) ∧
      (st ≠ 3 → st ≠ 2 → st ≠ 8 → st ≠ 4 → c = none)) ∧
    (∃ a1, a.input_cb d = Except.ok (a1, [{ task_id := a.task_id, status := some a1.status }]) ∧
      (d = 3 → a1.status = TaskStatus.SUCCEEDED) ∧
      (d = 2 → a1.status = TaskStatus.CANCELLED) ∧
      (d = 4 → a1.status = TaskStatus.ABORTED) ∧
      (d ≠ 2 → d ≠ 3 → d ≠ 4 → a1.status = a.status ∧ a1.subscribed = a.subscribed) ∧
      (d = 2 ∨ d = 3 ∨ d = 4 → a1.subscribed = false)) := by
  constructor
  · refine ⟨if st = 3 then some TaskStatus.SUCCEEDED
      else if st = 2 ∨ st = 8 then some TaskStatus.CANCELLED
      else if st = 4 then some TaskStatus.ABORTED
      else none, ?_, ?_, ?_, ?_, ?_⟩
    · simp only [RobotMoveBase.done_cb, ht, if_true]
    · intro h3; simp [h3]
    · rintro (h | h) <;> simp [h]
    · intro h4; simp [h4]
    · intro h3 h2 h8 h4; simp [h3, h2, h8, h4]
  · refine ⟨{ a with
        status := if d = 3 then TaskStatus.SUCCEEDED
          else if d = 2 then TaskStatus.CANCELLED
          else if d = 4 then TaskStatus.ABORTED
          else a.status,
        subscribed := if d = 2 ∨ d = 3 ∨ d = 4 then false else a.subscribed },
      ?_, ?_, ?_, ?_, ?_, ?_⟩
    · simp only [AwaitingLoadCompletion.input_cb, ha, if_true]
    · intro h3; simp [h3]
    · intro h2; simp [h2]
    · intro h4; simp [h4]
    · intro h2 h3 h4; simp [h2, h3, h4]
    · rintro (h | h | h) <;> simp [h]

/-- Witness for C5's amended statement at a started movement task receiving
the unmapped action status 5 and a started load task receiving terminal
input 3. -/
theorem C5_witness :
    (∃ c, ((RobotMoveBase.new Unit ()).start "r1" 0 5).done_cb 5 =
        Except.ok [{ task_id := ((RobotMoveBase.new Unit ()).start "r1" 0 5).task_id,
                     status := c }] ∧
      ((5 : Nat) = 3 → c = some TaskStatus.SUCCEEDED) ∧
      ((5 : Nat) = 2 ∨ (5 : Nat) = 8 → c = some TaskStatus.CANCELLED) ∧
      ((5 : Nat) = 4 → c = some TaskStatus.ABORTED) ∧
      ((5 : Nat) ≠ 3 → (5 : Nat) ≠ 2 → (5 : Nat) ≠ 8 → (5 : Nat) ≠ 4 → c = none)) ∧
    (∃ a1, (AwaitingLoadCompletion.new.start "r2" 1).input_cb 3 =
        Except.ok (a1, [{ task_id := (AwaitingLoadCompletion.new.start "r2" 1).task_id,
                          status := some a1.status }]) ∧
      ((3 : Nat) = 3 → a1.status = TaskStatus.SUCCEEDED) ∧
      ((3 : Nat) = 2 → a1.status = TaskStatus.CANCELLED) ∧
      ((3 : Nat) = 4 → a1.status = TaskStatus.ABORTED) ∧
      ((3 : Nat) ≠ 2 → (3 : Nat) ≠ 3 → (3 : Nat) ≠ 4 →
        a1.status = (AwaitingLoadCompletion.new.start "r2" 1).status ∧
        a1.subscribed = (AwaitingLoadCompletion.new.start "r2" 1).subscribed) ∧
      ((3 : Nat) = 2 ∨ (3 : Nat) = 3 ∨ (3 : Nat) = 4 → a1.subscribed = false)) :=
  C5_amended ((RobotMoveBase.new Unit ()).start "r1" 0 5) 5
    (AwaitingLoadCompletion.new.start "r2" 1) 3 rfl rfl

/-- C8, counterexample: a PENDING job with an empty task list is validly
allocated, handed to the refiner, and then start_job raises IndexError, so
the refiner neither appends the job to the active list nor returns the
success result. -/
theorem C8_counterexample :
    (job_allocator [mkJob "j1" none JobStatus.PENDING none 0] ([] : List (Job Unit))
      [sampleMex "e1"]).active = [] ∧
    (job_allocator [mkJob "j1" none JobStatus.PENDING none 0] ([] : List (Job Unit))
      [sampleMex "e1"]).ret = none ∧
    (job_allocator [mkJob "j1" none JobStatus.PENDING none 0] ([] : List (Job Unit))
      [sampleMex "e1"]).err = some "IndexError" := by
  decide

/-- C8, amended: for every job in ASSIGNED status with a non-empty task list
(which is what a validly allocated job with tasks is), job_refiner starts
the job, sets every snapshot entry whose (executor id, job id) pair matches
the job to EXECUTING_TASK, notifies the registry of the new executor status,
appends the started job to the active list, and returns the success result
0; no failure result exists in its code. -/
theorem C8_amended {tau : Type} (active : List (Job tau)) (mexs : List MEx)
    (job : Job tau) (hst : job.status = JobStatus.ASSIGNED)
    (hne : job.task_list ≠ []) :
    job_refiner active mexs job =
      { active := active ++ [{ job with status := JobStatus.ACTIVE, task_current := some 0 }],
        mexs := mexs.map (fun m =>
          if some m.id = job.mex_id ∧ m.job_id = some job.id then
            { m with status := MExStatus.EXECUTING_TASK } else m),
        job := { job with status := JobStatus.ACTIVE, task_current := some 0 },
        jobEvents := [JobEvent.taskStart job.mex_id 0],
        regEvents := [AllocEvent.changeMexStatus job.mex_id MExStatus.EXECUTING_TASK],
        ret := some 0, err := none } := by
  have hlen : 0 < job.task_list.length := List.length_pos.mpr hne
  simp only [job_refiner, Job.start_job]
  rw [if_pos hst]
  simp [hlen]

/-- Witness for C8's amended statement at a concrete assigned one-task job. -/
theorem C8_witness :
    (mkJob "j1" (some "e1") JobStatus.ASSIGNED none 1).status = JobStatus.ASSIGNED ∧
    (mkJob "j1" (some "e1") JobStatus.ASSIGNED none 1).task_list ≠ [] ∧
    job_refiner [] [sampleMex "e1"] (mkJob "j1" (some "e1") JobStatus.ASSIGNED none 1) =
      { active := [{ mkJob "j1" (some "e1") JobStatus.ASSIGNED none 1 with
                     status := JobStatus.ACTIVE, task_current := some 0 }],
        mexs := [sampleMex "e1"].map (fun m =>
          if some m.id = (mkJob "j1" (some "e1") JobStatus.ASSIGNED none 1).mex_id ∧
              m.job_id = some (mkJob "j1" (some "e1") JobStatus.ASSIGNED none 1).id then
            { m with status := MExStatus.EXECUTING_TASK } else m),
        job := { mkJob "j1" (some "e1") JobStatus.ASSIGNED none 1 with
                 status := JobStatus.ACTIVE, task_current := some 0 },
        jobEvents := [JobEvent.taskStart (some "e1") 0],
        regEvents := [AllocEvent.changeMexStatus (some "e1") MExStatus.EXECUTING_TASK],
        ret := some 0, err := none } := by
  refine ⟨by decide, by decide, ?_⟩
  have h := C8_amended ([] : List (Job Unit)) [sampleMex "e1"]
    (mkJob "j1" (some "e1") JobStatus.ASSIGNED none 1) (by decide) (by decide)
  simpa using h

/-- C3: per invocation the allocator issues at most one assignment
notification, either leaves both lists untouched (allocation miss) or
removes exactly one job from the pending queue (possibly appending a job
with that job's id to the active list), and afterwards no job id occurs in
both the pending and the active list, given that the inputs were disjoint
with distinct pending ids. -/
theorem C3_single_assignment {tau : Type} (pending active : List (Job tau))
    (mexs : List MEx) (hnd : (pending.map Job.id).Nodup)
    (hdisj : ∀ j ∈ pending, j.id ∉ active.map Job.id) :
    ((job_allocator pending active mexs).regEvents.filter AllocEvent.isAssignJob).length ≤ 1 ∧
    (((job_allocator pending active mexs).pending = pending ∧
      (job_allocator pending active mexs).active = active ∧
      (job_allocator pending active mexs).regEvents = []) ∨
     (∃ i, ∃ h : i < pending.length,
       (job_allocator pending active mexs).pending = pending.eraseIdx i ∧
       ((job_allocator pending active mexs).active = active ∨
        ∃ j1, (job_allocator pending active mexs).active = active ++ [j1] ∧
          j1.id = (pending.get ⟨i, h⟩).id))) ∧
    (∀ j ∈ (job_allocator pending active mexs).pending,
      j.id ∉ (job_allocator pending active mexs).active.map Job.id) := by
  cases hps : pendingScan pending mexs with
  | none =>
    have hall : job_allocator pending active mexs =
        { pending := pending, active := active, mexs := mexs,
          jobEvents := [], regEvents := [], ret := some 1, err := none } := by
      simp [job_allocator, hps]
    rw [hall]
    exact ⟨by simp, Or.inl ⟨rfl, rfl, rfl⟩, hdisj⟩
  | some trip =>
    obtain ⟨i, rough, mexs1⟩ := trip
    obtain ⟨hlt, mid, hpend, hms, hrough⟩ := pendingScan_spec pending mexs i rough mexs1 hps
    have hrid : rough.id = (pending.get ⟨i, hlt⟩).id := by
      rw [hrough]; exact assign_mex_id _ _
    cases herr : rough.start_job.err with
    | some e =>
      have href : job_refiner active mexs1 rough =
          { active := active, mexs := mexs1, job := rough.start_job.job,
            jobEvents := rough.start_job.events, regEvents := [], ret := none,
            err := some e } := by
        simp [job_refiner, herr]
      have hall : job_allocator pending active mexs =
          { pending := pending.eraseIdx i, active := active, mexs := mexs1,
            jobEvents := rough.start_job.events,
            regEvents := [AllocEvent.assignJob rough.id rough.mex_id], ret := none,
            err := some e } := by
        simp [job_allocator, hps, href]
      rw [hall]
      refine ⟨by simp [AllocEvent.isAssignJob], Or.inr ⟨i, hlt, rfl, Or.inl rfl⟩, ?_⟩
      intro j hj
      exact hdisj j (mem_of_mem_eraseIdx pending i j hj)
    | none =>
      have href : job_refiner active mexs1 rough =
          { active := active ++ [rough.start_job.job],
            mexs := mexs1.map (fun m =>
              if some m.id = rough.start_job.job.mex_id ∧
                  m.job_id = some rough.start_job.job.id then
                { m with status := MExStatus.EXECUTING_TASK } else m),
            job := rough.start_job.job,
            jobEvents := rough.start_job.events,
            regEvents := [AllocEvent.changeMexStatus rough.start_job.job.mex_id
              MExStatus.EXECUTING_TASK],
            ret := some 0, err := none } := by
        simp [job_refiner, herr]
      have hall : job_allocator pending active mexs =
          { pending := pending.eraseIdx i,
            active := active ++ [rough.start_job.job],
            mexs := mexs1.map (fun m =>
              if some m.id = rough.start_job.job.mex_id ∧
                  m.job_id = some rough.start_job.job.id then
                { m with status := MExStatus.EXECUTING_TASK } else m),
            jobEvents := rough.start_job.events,
            regEvents := [AllocEvent.assignJob rough.id rough.mex_id,
              AllocEvent.changeMexStatus rough.start_job.job.mex_id
                MExStatus.EXECUTING_TASK],
            ret := some 0, err := none } := by
        simp [job_allocator, hps, href]
      rw [hall]
      refine ⟨by simp [AllocEvent.isAssignJob],
        Or.inr ⟨i, hlt, rfl, Or.inr ⟨rough.start_job.job, rfl, by
          rw [start_job_id]; exact hrid⟩⟩, ?_⟩
      intro j hj hmem
      rw [List.map_append, List.mem_append] at hmem
      rcases hmem with hmem | hmem
      · exact hdisj j (mem_of_mem_eraseIdx pending i j hj) hmem
      · have hid : j.id = (pending.get ⟨i, hlt⟩).id := by
          simpa [start_job_id, hrid] using hmem
        exact eraseIdx_map_ne Job.id pending i hlt hnd j hj hid

/-- Witness for C3 at a one-job pending queue and a matching standby
executor. -/
theorem C3_witness :
    ((job_allocator [mkJob "j1" none JobStatus.PENDING none 1] ([] : List (Job Unit))
        [sampleMex "e1"]).regEvents.filter AllocEvent.isAssignJob).length ≤ 1 ∧
    (((job_allocator [mkJob "j1" none JobStatus.PENDING none 1] ([] : List (Job Unit))
        [sampleMex "e1"]).pending = [mkJob "j1" none JobStatus.PENDING none 1] ∧
      (job_allocator [mkJob "j1" none JobStatus.PENDING none 1] ([] : List (Job Unit))
        [sampleMex "e1"]).active = [] ∧
      (job_allocator [mkJob "j1" none JobStatus.PENDING none 1] ([] : List (Job Unit))
        [sampleMex "e1"]).regEvents = []) ∨
     (∃ i, ∃ h : i < [mkJob "j1" none JobStatus.PENDING none 1].length,
       (job_allocator [mkJob "j1" none JobStatus.PENDING none 1] ([] : List (Job Unit))
         [sampleMex "e1"]).pending = [mkJob "j1" none JobStatus.PENDING none 1].eraseIdx i ∧
       ((job_allocator [mkJob "j1" none JobStatus.PENDING none 1] ([] : List (Job Unit))
           [sampleMex "e1"]).active = [] ∨
        ∃ j1, (job_allocator [mkJob "j1" none JobStatus.PENDING none 1] ([] : List (Job Unit))
            [sampleMex "e1"]).active = [] ++ [j1] ∧
          j1.id = ([mkJob "j1" none JobStatus.PENDING none 1].get ⟨i, h⟩).id))) ∧
    (∀ j ∈ (job_allocator [mkJob "j1" none JobStatus.PENDING none 1] ([] : List (Job Unit))
        [sampleMex "e1"]).pending,
      j.id ∉ (job_allocator [mkJob "j1" none JobStatus.PENDING none 1] ([] : List (Job Unit))
        [sampleMex "e1"]).active.map Job.id) :=
  C3_single_assignment [mkJob "j1" none JobStatus.PENDING none 1] [] [sampleMex "e1"]
    (by decide) (by decide)

/-- C4, counterexample: with pending queue [j1 pre-assigned to the absent
executor e9, j2 unconstrained, both PENDING] and snapshot [e1 STANDBY], the
first PENDING job has no matching standby executor, yet the allocator does
not report a miss with the queue unchanged: it passes j1 over, assigns the
later pending job j2 to e1 and removes j2 from the queue. -/
theorem C4_counterexample :
    (job_allocator [mkJob "j1" (some "e9") JobStatus.PENDING none 1,
        mkJob "j2" none JobStatus.PENDING none 1] ([] : List (Job Unit))
      [sampleMex "e1"]).pending = [mkJob "j1" (some "e9") JobStatus.PENDING none 1] ∧
    (job_allocator [mkJob "j1" (some "e9") JobStatus.PENDING none 1,
        mkJob "j2" none JobStatus.PENDING none 1] ([] : List (Job Unit))
      [sampleMex "e1"]).ret = some 0 ∧
    AllocEvent.assignJob "j2" (some "e1") ∈
      (job_allocator [mkJob "j1" (some "e9") JobStatus.PENDING none 1,
          mkJob "j2" none JobStatus.PENDING none 1] ([] : List (Job Unit))
        [sampleMex "e1"]).regEvents := by
  decide

/-- C4, amended: the allocator scans every job of the pending queue in
order, not just the first PENDING one: it reports a miss with both lists
unchanged exactly when no PENDING job in the queue has a matching standby
executor, and otherwise removes the first PENDING-and-matchable job from
the queue and notifies the registry of that job's assignment; a PENDING job
with no match does not block later pending jobs in the same invocation. -/
theorem C4_amended {tau : Type} (pending active : List (Job tau)) (mexs : List MEx) :
    ((∀ j ∈ pending, j.status = JobStatus.PENDING → ¬ canMatch j mexs) →
      (job_allocator pending active mexs).ret = some 1 ∧
      (job_allocator pending active mexs).pending = pending ∧
      (job_allocator pending active mexs).active = active) ∧
    (∀ i, ∀ h : i < pending.length,
      (pending.get ⟨i, h⟩).status = JobStatus.PENDING →
      canMatch (pending.get ⟨i, h⟩) mexs →
      (∀ jb ∈ pending.take i, ¬(jb.status = JobStatus.PENDING ∧ canMatch jb mexs)) →
      (job_allocator pending active mexs).pending = pending.eraseIdx i ∧
      ∃ m, (job_allocator pending active mexs).regEvents.head? =
        some (AllocEvent.assignJob (pending.get ⟨i, h⟩).id m)) := by
  constructor
  · intro hall
    have hps : pendingScan pending mexs = none :=
      (pendingScan_eq_none_iff pending mexs).mpr hall
    refine ⟨?_, ?_, ?_⟩ <;> simp [job_allocator, hps]
  · intro i h hpend hcm hbefore
    obtain ⟨mid, mexs1, hps⟩ := pendingScan_first pending mexs i h hpend hcm hbefore
    have hreg : (job_allocator pending active mexs).regEvents =
        AllocEvent.assignJob ((pending.get ⟨i, h⟩).assign_mex mid).id
          ((pending.get ⟨i, h⟩).assign_mex mid).mex_id ::
          (job_refiner active mexs1 ((pending.get ⟨i, h⟩).assign_mex mid)).regEvents := by
      simp [job_allocator, hps]
    refine ⟨by simp [job_allocator, hps], ((pending.get ⟨i, h⟩).assign_mex mid).mex_id, ?_⟩
    rw [hreg, assign_mex_id]
    rfl

/-- Witness for C4's amended statement at a pending job matched at index 0. -/
theorem C4_witness :
    (job_allocator [mkJob "j2" none JobStatus.PENDING none 1] ([] : List (Job Unit))
      [sampleMex "e1"]).pending =
        [mkJob "j2" none JobStatus.PENDING none 1].eraseIdx 0 ∧
    ∃ m, (job_allocator [mkJob "j2" none JobStatus.PENDING none 1] ([] : List (Job Unit))
      [sampleMex "e1"]).regEvents.head? =
        some (AllocEvent.assignJob
          ([mkJob "j2" none JobStatus.PENDING none 1].get ⟨0, by decide⟩).id m) :=
  (C4_amended [mkJob "j2" none JobStatus.PENDING none 1] [] [sampleMex "e1"]).2 0
    (by decide) (by decide) ⟨sampleMex "e1", by decide⟩ (by simp)

/-- C7: the allocator binds a job carrying a (truthy) pre-assigned executor
id only to the executor with exactly that id: any issued assignment
notification for such a job names that executor; and in the single-job
Scenario B, a pre-assigned id matched by no standby executor yields an
allocation miss with the pending queue and active list unchanged. -/
theorem C7_preassigned {tau : Type} (pending active : List (Job tau)) (mexs : List MEx)
    (hnd : (pending.map Job.id).Nodup) :
    (∀ jid m, (job_allocator pending active mexs).regEvents.head? =
        some (AllocEvent.assignJob jid m) →
      ∀ jb ∈ pending, jb.id = jid → ∀ e, jb.mex_id = some e → e ≠ "" → m = some e) ∧
    (∀ j e, pending = [j] → j.status = JobStatus.PENDING → j.mex_id = some e → e ≠ "" →
      (∀ mex ∈ mexs, mex.status = MExStatus.STANDBY → mex.id ≠ e) →
      (job_allocator pending active mexs).ret = some 1 ∧
      (job_allocator pending active mexs).pending = pending ∧
      (job_allocator pending active mexs).active = active) := by
  constructor
  · intro jid m hhead jb hjb hjbid e hjbe he
    cases hps : pendingScan pending mexs with
    | none =>
      have hreg : (job_allocator pending active mexs).regEvents = [] := by
        simp [job_allocator, hps]
      rw [hreg] at hhead
      exact absurd hhead (by simp)
    | some trip =>
      obtain ⟨i, rough, mexs1⟩ := trip
      obtain ⟨hlt, mid, hpend, hms, hrough⟩ := pendingScan_spec pending mexs i rough mexs1 hps
      have hreg : (job_allocator pending active mexs).regEvents =
          AllocEvent.assignJob rough.id rough.mex_id ::
            (job_refiner active mexs1 rough).regEvents := by
        simp [job_allocator, hps]
      rw [hreg, List.head?_cons] at hhead
      obtain ⟨hjid, hm⟩ := AllocEvent.assignJob.inj (Option.some.inj hhead)
      have hrid : rough.id = (pending.get ⟨i, hlt⟩).id := by
        rw [hrough]; exact assign_mex_id _ _
      have hjb_eq : jb = pending.get ⟨i, hlt⟩ :=
        nodup_map_mem_inj Job.id pending hnd jb hjb _ (List.get_mem pending i hlt)
          (by rw [hjbid, ← hjid, hrid])
      have hgetmex : (pending.get ⟨i, hlt⟩).mex_id = some e := by
        rw [← hjb_eq]; exact hjbe
      have hmid : mid = e := by
        rcases mexScan_some_cond (pending.get ⟨i, hlt⟩) mexs mid mexs1 hms with hfal | hsome
        · rw [hgetmex] at hfal
          simp [pyFalsy] at hfal
          exact absurd hfal he
        · rw [hgetmex] at hsome
          exact (Option.some.inj hsome).symm
      have hrmex : rough.mex_id = some mid := by
        rw [hrough, assign_mex_of_pending _ _ hpend]
      rw [← hm, hrmex, hmid]
  · intro j e hpe hjp hje he hnomex
    subst hpe
    have hms : mexScan j mexs = none := by
      rw [mexScan_eq_none_iff]
      rintro ⟨m2, hm2, hst2, hcond2⟩
      rcases hcond2 with hfal | hsome
      · rw [hje] at hfal
        simp [pyFalsy] at hfal
        exact he hfal
      · rw [hje] at hsome
        exact hnomex m2 hm2 hst2 (Option.some.inj hsome).symm
    have hps : pendingScan [j] mexs = none := by
      simp [pendingScan, hjp, hms]
    refine ⟨?_, ?_, ?_⟩ <;> simp [job_allocator, hps]

/-- Witness for C7 at Scenario B: one pending job pre-assigned to e9, one
standby executor e1. -/
theorem C7_witness :
    (job_allocator [mkJob "j2" (some "e9") JobStatus.PENDING none 1] ([] : List (Job Unit))
      [sampleMex "e1"]).ret = some 1 ∧
    (job_allocator [mkJob "j2" (some "e9") JobStatus.PENDING none 1] ([] : List (Job Unit))
      [sampleMex "e1"]).pending = [mkJob "j2" (some "e9") JobStatus.PENDING none 1] ∧
    (job_allocator [mkJob "j2" (some "e9") JobStatus.PENDING none 1] ([] : List (Job Unit))
      [sampleMex "e1"]).active = [] :=
  (C7_preassigned [mkJob "j2" (some "e9") JobStatus.PENDING none 1] [] [sampleMex "e1"]
      (by decide)).2
    (mkJob "j2" (some "e9") JobStatus.PENDING none 1) "e9" rfl (by decide) rfl (by decide)
    (by decide)

end Rooster
